import Mathlib

/-!
Verification of `bitrecs/llms/prompt_factory.py`.

The Python source is shallowly embedded: strings are `String` / `List Char`,
Python `json.loads` is modelled by a recursive-descent parser over the JSON
grammar actually exercised by the code (objects, arrays, strings with escapes,
numbers, `true`/`false`/`null`; the non-standard `NaN`/`Infinity` extension of
Python's decoder is not modelled), and the two regular expressions
`\[.*?\]` and `\[[\s\S]*?\]` (both compiled with `re.DOTALL`) are modelled by
an executable matcher whose per-character class test is the only difference
between the two patterns, exactly as in the source.
-/

namespace Bitrecs

/-- Python `str.isspace` characters relevant to `str.strip()` (ASCII range;
the source only ever strips LLM output, where these are the ones that occur). -/
def isPySpace (c : Char) : Bool :=
  c == ' ' || c == '\t' || c == '\n' || c == '\r' || c == '\x0b' || c == '\x0c'

/-- Python `str.strip()` with no argument: remove leading and trailing whitespace. -/
def pyStrip (s : List Char) : List Char :=
  ((s.dropWhile isPySpace).reverse.dropWhile isPySpace).reverse

/-- One fuelled pass of Python `str.replace(pat, rep)`: scan left to right,
replacing every non-overlapping occurrence of `pat`. -/
def replaceGo (pat rep : List Char) : Nat → List Char → List Char
  | 0, s => s
  | _ + 1, [] => []
  | fuel + 1, c :: rest =>
    if pat.isPrefixOf (c :: rest) && !pat.isEmpty then
      rep ++ replaceGo pat rep fuel ((c :: rest).drop pat.length)
    else
      c :: replaceGo pat rep fuel rest

/-- Python `s.replace(pat, rep)` for the non-empty patterns used by the source. -/
def pyReplace (s pat rep : List Char) : List Char :=
  replaceGo pat rep s.length s

/-- The character class of `.` under `re.DOTALL`: any character. -/
def dotAllDot (_ : Char) : Bool := true

/-- Python regex `\s` (ASCII portion; the disjunction below is total anyway). -/
def isPyRegexSpace (c : Char) : Bool :=
  c == ' ' || c == '\t' || c == '\n' || c == '\r' || c == '\x0b' || c == '\x0c'

/-- The character class `[\s\S]`: a whitespace or a non-whitespace character. -/
def backslashSClass (c : Char) : Bool :=
  isPyRegexSpace c || !isPyRegexSpace c

/-- Non-greedy tail of `\[ C*? \]` at the position right after a `[`:
the shortest content of characters from class `C` (here `p`) up to the first
`]`, returning the content and the remainder after the `]`. -/
def findClose (p : Char → Bool) : List Char → Option (List Char × List Char)
  | [] => none
  | c :: cs =>
    if c == ']' then some ([], cs)
    else if p c then
      match findClose p cs with
      | some (content, rest) => some (c :: content, rest)
      | none => none
    else none

/-- Fuelled `re.findall` for the pattern `\[ C*? \]`: scan left to right; at a
`[` attempt the non-greedy close; on success emit the match (brackets included)
and continue after it (non-overlapping), on failure keep scanning. -/
def findAllGo (p : Char → Bool) : Nat → List Char → List (List Char)
  | 0, _ => []
  | _ + 1, [] => []
  | fuel + 1, c :: cs =>
    if c == '[' then
      match findClose p cs with
      | some (content, rest) => ('[' :: content ++ [']']) :: findAllGo p fuel rest
      | none => findAllGo p fuel cs
    else findAllGo p fuel cs

/-- `re.findall(pattern, s)` for the two bracket patterns of the source. -/
def findall (p : Char → Bool) (s : List Char) : List (List Char) :=
  findAllGo p s.length s

/-- JSON values as produced by `json.loads` (numbers as exact rationals). -/
inductive Json where
  | null : Json
  | bool : Bool → Json
  | num : Rat → Json
  | str : String → Json
  | arr : List Json → Json
  | obj : List (String × Json) → Json

/-- Prepend a character to the string being accumulated by `parseStrBody`. -/
def mapCons (c : Char) : Option (List Char × List Char) → Option (List Char × List Char)
  | some (cs, r) => some (c :: cs, r)
  | none => none

/-- Hexadecimal digit value, as in a JSON `\uXXXX` escape. -/
def parseHexDigit (c : Char) : Option Nat :=
  if '0' ≤ c ∧ c ≤ '9' then some (c.toNat - 48)
  else if 'a' ≤ c ∧ c ≤ 'f' then some (c.toNat - 87)
  else if 'A' ≤ c ∧ c ≤ 'F' then some (c.toNat - 55)
  else none

/-- Body of a JSON string after the opening quote: escapes are decoded and a
raw control character is rejected, as in Python's strict decoder. -/
def parseStrBody : List Char → Option (List Char × List Char)
  | [] => none
  | '\"' :: r => some ([], r)
  | '\\' :: '\"' :: r => mapCons '\"' (parseStrBody r)
  | '\\' :: '\\' :: r => mapCons '\\' (parseStrBody r)
  | '\\' :: '/' :: r => mapCons '/' (parseStrBody r)
  | '\\' :: 'b' :: r => mapCons '\x08' (parseStrBody r)
  | '\\' :: 'f' :: r => mapCons '\x0c' (parseStrBody r)
  | '\\' :: 'n' :: r => mapCons '\n' (parseStrBody r)
  | '\\' :: 'r' :: r => mapCons '\r' (parseStrBody r)
  | '\\' :: 't' :: r => mapCons '\t' (parseStrBody r)
  | '\\' :: 'u' :: h1 :: h2 :: h3 :: h4 :: r =>
    match parseHexDigit h1, parseHexDigit h2, parseHexDigit h3, parseHexDigit h4 with
    | some a, some b, some c, some d =>
      mapCons (Char.ofNat (((a * 16 + b) * 16 + c) * 16 + d)) (parseStrBody r)
    | _, _, _, _ => none
  | '\\' :: _ => none
  | c :: r => if c.toNat < 32 then none else mapCons c (parseStrBody r)

/-- Value of a digit string. -/
def digitsVal (ds : List Char) : Nat :=
  ds.foldl (fun a c => a * 10 + (c.toNat - 48)) 0

/-- Split off a maximal run of decimal digits. -/
def takeDigits : List Char → (List Char × List Char)
  | [] => ([], [])
  | c :: r =>
    if '0' ≤ c ∧ c ≤ '9' then
      let (ds, rest) := takeDigits r
      (c :: ds, rest)
    else ([], c :: r)

/-- Fraction and exponent of a JSON number, given the integer part `i`. -/
def parseNumCore (neg : Bool) (i : Nat) (s2 : List Char) : Option (Rat × List Char) :=
  let fr : Option (List Char × List Char) :=
    match s2 with
    | '.' :: r =>
      let (ds, rest) := takeDigits r
      if ds.isEmpty then none else some (ds, rest)
    | _ => some ([], s2)
  match fr with
  | none => none
  | some (fds, s3) =>
    let ex : Option (Int × List Char) :=
      match s3 with
      | 'e' :: r | 'E' :: r =>
        let (esign, r2) : Int × List Char :=
          match r with
          | '+' :: rr => (1, rr)
          | '-' :: rr => (-1, rr)
          | _ => (1, r)
        let (eds, rest) := takeDigits r2
        if eds.isEmpty then none else some (esign * (digitsVal eds : Int), rest)
      | _ => some (0, s3)
    match ex with
    | none => none
    | some (e, s4) =>
      let k := fds.length
      let mant : Int := (i * 10 ^ k + digitsVal fds : Nat)
      let scaled : Rat :=
        if 0 ≤ e then mkRat (mant * (10 : Int) ^ e.toNat) (10 ^ k)
        else mkRat mant (10 ^ k * 10 ^ (-e).toNat)
      some (if neg then -scaled else scaled, s4)

/-- JSON number: optional minus, `0` or a nonzero-led digit run, then an
optional fraction and exponent (leading zeros are left as trailing input,
as in Python's decoder, where they then fail the caller's delimiter check). -/
def parseNum (s : List Char) : Option (Rat × List Char) :=
  let (neg, s1) : Bool × List Char :=
    match s with
    | '-' :: r => (true, r)
    | _ => (false, s)
  match s1 with
  | '0' :: r => parseNumCore neg 0 r
  | c :: r =>
    if '1' ≤ c ∧ c ≤ '9' then
      let (ds, rest) := takeDigits r
      parseNumCore neg (digitsVal (c :: ds)) rest
    else none
  | [] => none

/-- JSON insignificant whitespace. -/
def jsonSkipWs (s : List Char) : List Char :=
  s.dropWhile (fun c => c == ' ' || c == '\t' || c == '\n' || c == '\r')

/-- Parsing task: a single value, the items of an array after `[`, or the
members of an object after `{` (whitespace already skipped, at least one
item/member pending). -/
inductive PTask where
  | val : PTask
  | arrTail : PTask
  | objTail : PTask

/-- Result of a parsing task. -/
inductive POut where
  | v : Json → POut
  | items : List Json → POut
  | members : List (String × Json) → POut

/-- Fuelled recursive-descent JSON parser (the decoder behind `json.loads`). -/
def pj : Nat → PTask → List Char → Option (POut × List Char)
  | 0, _, _ => none
  | fuel + 1, .val, s =>
    match s with
    | 'n' :: 'u' :: 'l' :: 'l' :: r => some (.v .null, r)
    | 't' :: 'r' :: 'u' :: 'e' :: r => some (.v (.bool true), r)
    | 'f' :: 'a' :: 'l' :: 's' :: 'e' :: r => some (.v (.bool false), r)
    | '\"' :: r =>
      match parseStrBody r with
      | some (cs, r2) => some (.v (.str (String.mk cs)), r2)
      | none => none
    | '[' :: r =>
      match jsonSkipWs r with
      | ']' :: r2 => some (.v (.arr []), r2)
      | r2 =>
        match pj fuel .arrTail r2 with
        | some (.items l, r3) => some (.v (.arr l), r3)
        | _ => none
    | '{' :: r =>
      match jsonSkipWs r with
      | '}' :: r2 => some (.v (.obj []), r2)
      | r2 =>
        match pj fuel .objTail r2 with
        | some (.members l, r3) => some (.v (.obj l), r3)
        | _ => none
    | _ =>
      match parseNum s with
      | some (q, r) => some (.v (.num q), r)
      | none => none
  | fuel + 1, .arrTail, s =>
    match pj fuel .val s with
    | some (.v j, r) =>
      match jsonSkipWs r with
      | ',' :: r2 =>
        match pj fuel .arrTail (jsonSkipWs r2) with
        | some (.items l, r3) => some (.items (j :: l), r3)
        | _ => none
      | ']' :: r2 => some (.items [j], r2)
      | _ => none
    | _ => none
  | fuel + 1, .objTail, s =>
    match s with
    | '\"' :: r =>
      match parseStrBody r with
      | some (k, r2) =>
        match jsonSkipWs r2 with
        | ':' :: r3 =>
          match pj fuel .val (jsonSkipWs r3) with
          | some (.v j, r4) =>
            match jsonSkipWs r4 with
            | ',' :: r5 =>
              match pj fuel .objTail (jsonSkipWs r5) with
              | some (.members l, r6) => some (.members ((String.mk k, j) :: l), r6)
              | _ => none
            | '}' :: r5 => some (.members [(String.mk k, j)], r5)
            | _ => none
          | _ => none
        | _ => none
      | none => none
    | _ => none

/-- `json.loads` on a character list: a single value with surrounding
whitespace, the whole input consumed. -/
def json_loads_l (s : List Char) : Option Json :=
  match pj (2 * s.length + 4) .val (jsonSkipWs s) with
  | some (.v j, r) => if jsonSkipWs r = [] then some j else none
  | _ => none

/-- The literal markdown fence markers removed by `tryparse_llm`. -/
def fenceJson : List Char := "```json".toList

/-- The bare markdown fence marker. -/
def fence : List Char := "```".toList

/-- The cleaned input of `tryparse_llm`: strip, remove the fence markers
(`"```json"` first, then `"```"`), strip again. -/
def cleanInput (l : List Char) : List Char :=
  pyStrip (pyReplace (pyReplace (pyStrip l) fenceJson []) fence [])

/-- The candidate loop of `tryparse_llm`: parse each candidate (stripped) as
JSON; the first one that parses to a list wins; parse failures and non-list
results are skipped. -/
def firstListParse : List (List Char) → Option (List Json)
  | [] => none
  | m :: rest =>
    match json_loads_l (pyStrip m) with
    | some (Json.arr xs) => some xs
    | _ => firstListParse rest

/-- `PromptFactory.tryparse_llm`: empty/whitespace input yields `[]`; else the
input is cleaned, the candidates of pattern `\[.*?\]` and then of pattern
`\[[\s\S]*?\]` are tried in order, then the entire cleaned input, and `[]` is
the final fallback. -/
def tryparse_llm (input_str : String) : List Json :=
  let l := input_str.toList
  if pyStrip l = [] then []
  else
    let cleaned := cleanInput l
    match firstListParse (findall dotAllDot cleaned) with
    | some xs => xs
    | none =>
      match firstListParse (findall backslashSClass cleaned) with
      | some xs => xs
      | none =>
        match json_loads_l cleaned with
        | some (Json.arr xs) => xs
        | _ => []

/-- Modelled from the spec's words (§4.5 / C1), for comparison with
`tryparse_llm`: collect all candidates of strategy (a) and then strategy (b)
in order of appearance, return the first that parses to a list, otherwise
parse the entire cleaned string, otherwise return the empty sequence. -/
def recover_spec (input_str : String) : List Json :=
  let cleaned := cleanInput input_str.toList
  match firstListParse (findall dotAllDot cleaned ++ findall backslashSClass cleaned) with
  | some xs => xs
  | none =>
    match json_loads_l cleaned with
    | some (Json.arr xs) => xs
    | _ => []

/-- The spec's exact C2 input `[{"sku":"A"} garbage [{"sku":"B",...}]`. -/
def c2_input : String :=
  "[\x7b\"sku\":\"A\"\x7d garbage [\x7b\"sku\":\"B\",\"name\":\"N\",\"price\":\"1\",\"reason\":\"r\"\x7d]"

/-- The C2 input with the malformed first candidate closed by its own `]`. -/
def c2_input_closed : String :=
  "[\x7b\"sku\":\"A\"\x7d garbage] [\x7b\"sku\":\"B\",\"name\":\"N\",\"price\":\"1\",\"reason\":\"r\"\x7d]"

/-- Python truthiness of a `json.loads` result, as used by
`if not products or len(products) == 0`. -/
def pyFalsy : Json → Bool
  | .null => true
  | .bool b => !b
  | .num q => q == 0
  | .str s => s.isEmpty
  | .arr l => l.isEmpty
  | .obj l => l.isEmpty

/-- Fuelled search for the smallest `k ≤ fuel` with `q * 10 ^ k` integral. -/
def decExpSearch (q : Rat) : Nat → Nat → Option Nat
  | 0, _ => none
  | fuel + 1, k =>
    if (q * (10 : Rat) ^ k).den == 1 then some k
    else decExpSearch q fuel (k + 1)

/-- Decimal rendering of a rational with power-of-ten denominator, matching
Python's `str()` on the floats `json.loads` produces from short decimal
literals (scientific-notation output for extreme magnitudes is not modelled). -/
def decimalRepr (q : Rat) : String :=
  if q.den == 1 then toString q.num
  else
    match decExpSearch q 64 0 with
    | some k =>
      let m := (q * (10 : Rat) ^ k).num
      let sign := if m < 0 then "-" else ""
      let ds := toString m.natAbs
      let ds := if ds.length ≤ k then String.mk (List.replicate (k + 1 - ds.length) '0') ++ ds else ds
      sign ++ ds.take (ds.length - k) ++ "." ++ ds.drop (ds.length - k)
    | none => toString q.num ++ "/" ++ toString q.den

/-- Python `str()` of a `json.loads` value, as applied to the `name` and
`price` fields. Containers are abstracted to a bracketed placeholder: the
source only ever feeds them to `float()` (which rejects any such text) and to
keyword-substring checks that no claim quantifies over. -/
def pyStr : Json → String
  | .str s => s
  | .null => "None"
  | .bool true => "True"
  | .bool false => "False"
  | .num q => decimalRepr q
  | .arr _ => "[list]"
  | .obj _ => "\x7bdict\x7d"

/-- Python `dict.get(k, dflt)` on an association list built left to right
(later bindings shadow earlier ones, as in a Python dict). -/
def pyGetJ (d : List (String × Json)) (k : String) (dflt : Json) : Json :=
  match d.reverse.find? (fun kv => kv.1 == k) with
  | some kv => kv.2
  | none => dflt

/-- Python `pat in s` substring test. -/
def strIn : List Char → List Char → Bool
  | pat, [] => pat.isEmpty
  | pat, c :: r => pat.isPrefixOf (c :: r) || strIn pat r

/-- `any(word in name for word in ws)`. -/
def anyIn (ws : List String) (name : String) : Bool :=
  ws.any (fun w => strIn w.toList name.toList)

/-- Category classification of a lower-cased product name: the five keyword
buckets of `_analyze_context`, checked in the source's priority order. -/
def categoryOf (name : String) : Option String :=
  if anyIn ["shirt", "top", "blouse", "tank"] name then some "tops"
  else if anyIn ["pants", "jeans", "trousers", "shorts"] name then some "bottoms"
  else if anyIn ["shoes", "boots", "sneakers", "sandals"] name then some "footwear"
  else if anyIn ["jacket", "coat", "blazer", "cardigan"] name then some "outerwear"
  else if anyIn ["dress", "skirt", "romper"] name then some "dresses"
  else none

/-- Gender classification of a lower-cased product name (the source checks the
men keywords first, then women, then unisex). -/
def genderOf (name : String) : Option String :=
  if anyIn ["men", "male", "mens", "guy"] name then some "men"
  else if anyIn ["women", "female", "womens", "lady", "girl"] name then some "women"
  else if anyIn ["unisex", "unisex"] name then some "unisex"
  else none

/-- `str(price).replace('$', '').replace(',', '')`. -/
def stripMoney (s : String) : String :=
  String.mk (pyReplace (pyReplace s.toList "$".toList []) ",".toList [])

/-- Python `float()` on a string: optional surrounding whitespace and sign,
digits with optional fraction and exponent, nothing left over (`inf`/`nan`
and digit-separating underscores are outside the modelled subset). -/
def pyFloat (s : String) : Option Rat :=
  let t := pyStrip s.toList
  let (neg, t1) : Bool × List Char :=
    match t with
    | '-' :: r => (true, r)
    | '+' :: r => (false, r)
    | _ => (false, t)
  let (ip, t2) := takeDigits t1
  let (fd, t3) : List Char × List Char :=
    match t2 with
    | '.' :: r => takeDigits r
    | _ => ([], t2)
  if ip.isEmpty && fd.isEmpty then none
  else
    let ex : Option (Int × List Char) :=
      match t3 with
      | 'e' :: r | 'E' :: r =>
        let (es, r2) : Int × List Char :=
          match r with
          | '+' :: rr => (1, rr)
          | '-' :: rr => (-1, rr)
          | _ => (1, r)
        let (eds, rest) := takeDigits r2
        if eds.isEmpty then none else some (es * (digitsVal eds : Int), rest)
      | _ => some (0, t3)
    match ex with
    | none => none
    | some (e, t4) =>
      if t4.isEmpty then
        let k := fd.length
        let mant : Int := (digitsVal ip * 10 ^ k + digitsVal fd : Nat)
        let v : Rat :=
          if 0 ≤ e then mkRat (mant * (10 : Int) ^ e.toNat) (10 ^ k)
          else mkRat mant (10 ^ k * 10 ^ (-e).toNat)
        some (if neg then -v else v)
      else none

/-- Price-tier classification of one record's `price` value: strip `$` and
`,`, parse as a float, bucket with the source's two strict-less-than tests;
`none` when the parse fails (`except: pass`). -/
def priceBucketJ (price : Json) : Option String :=
  match pyFloat (stripMoney (pyStr price)) with
  | none => none
  | some v => some (if v < 25 then "budget" else if v < 75 then "mid-range" else "premium")

/-- The per-record loop of `_analyze_context` over the (at most 50) analysed
products: returns the three tally lists, or `none` when a record is not a
mapping (Python's `product.get` would raise there, reaching the outer
`except`). -/
def analyzeRecords : List Json → Option (List String × List String × List String)
  | [] => some ([], [], [])
  | .obj d :: rest =>
    match analyzeRecords rest with
    | none => none
    | some (cs, gs, ps) =>
      let name := (pyStr (pyGetJ d "name" (.str ""))).toLower
      let price := pyGetJ d "price" (.str "0")
      let cs1 := match categoryOf name with | some c => c :: cs | none => cs
      let gs1 := match genderOf name with | some g => g :: gs | none => gs
      let ps1 := match priceBucketJ price with | some p => p :: ps | none => ps
      some (cs1, gs1, ps1)
  | _ :: _ => none

/-- Distinct elements in order of first appearance (the key order of a Python
`Counter` built from the list). -/
def firstSeenGo : List String → List String → List String
  | _, [] => []
  | seen, x :: r =>
    if seen.contains x then firstSeenGo seen r
    else x :: firstSeenGo (x :: seen) r

/-- Stable insertion of a counted key into a count-descending list. -/
def insertDesc (x : String × Nat) : List (String × Nat) → List (String × Nat)
  | [] => [x]
  | y :: ys => if y.2 ≤ x.2 then x :: y :: ys else y :: insertDesc x ys

/-- Stable sort by count descending (ties keep first-seen order). -/
def sortDesc : List (String × Nat) → List (String × Nat)
  | [] => []
  | x :: xs => insertDesc x (sortDesc xs)

/-- `Counter(l).most_common(n)`. -/
def mostCommon (l : List String) (n : Nat) : List (String × Nat) :=
  (sortDesc ((firstSeenGo [] l).map (fun k => (k, l.count k)))).take n

/-- The summary assembly of `_analyze_context`. -/
def buildSummary (cats genders prices : List String) : String :=
  let top_categories := mostCommon cats 3
  let top_genders := mostCommon genders 2
  let top_price_ranges := mostCommon prices 2
  let parts : List String :=
    (if top_categories.isEmpty then []
     else ["Main categories: " ++ String.intercalate ", " (top_categories.map (·.1))]) ++
    (if top_genders.isEmpty then []
     else ["Target gender: " ++ String.intercalate ", " (top_genders.map (·.1))]) ++
    (if top_price_ranges.isEmpty then []
     else ["Price range: " ++ String.intercalate ", " (top_price_ranges.map (·.1))])
  if parts.isEmpty then "Mixed product categories available" else String.intercalate "; " parts

/-- `PromptFactory._analyze_context` (source name `_analyze_context`): parse
the context, degrade to the sentinels on falsy input, non-list input, a
non-mapping record, or a parse failure; otherwise summarise the first 50
records. -/
def analyze_context (context : String) : String :=
  match json_loads_l context.toList with
  | none => "Context analysis unavailable"
  | some products =>
    if pyFalsy products then "No products available for analysis"
    else
      match products with
      | .arr l =>
        match analyzeRecords (l.take 50) with
        | some (cs, gs, ps) => buildSummary cs gs ps
        | none => "Context analysis unavailable"
      | _ => "Context analysis unavailable"

/-- One entry of the `PERSONAS` table. -/
structure PersonaData where
  description : String
  tone : String
  response_style : String
  priorities : List String

/-- The class attribute `SEASON`. -/
def SEASON : String := "spring/summer"

/-- The class attribute `ENGINE_MODE`. -/
def ENGINE_MODE : String := "complimentary"

/-- The static `PERSONAS` table (keys in source order). -/
def PERSONAS : List (String × PersonaData) :=
  [("luxury_concierge",
    { description := "an elite American Express-style luxury concierge with impeccable taste and a deep understanding of high-end products across all categories. You cater to discerning clients seeking exclusivity, quality, and prestige"
      tone := "sophisticated, polished, confident"
      response_style := "Recommend only the finest, most luxurious products with detailed descriptions of their premium features, craftsmanship, and exclusivity. Emphasize brand prestige and lifestyle enhancement"
      priorities := ["quality", "exclusivity", "brand prestige"] }),
   ("general_recommender",
    { description := "a friendly and practical product expert who helps customers find the best items for their needs, balancing seasonality, value, and personal preferences across a wide range of categories"
      tone := "warm, approachable, knowledgeable"
      response_style := "Suggest well-rounded products that offer great value, considering seasonal relevance and customer needs. Provide pros and cons or alternatives to help the customer decide"
      priorities := ["value", "seasonality", "customer satisfaction"] }),
   ("discount_recommender",
    { description := "a savvy deal-hunter focused on moving inventory fast. You prioritize low prices, last-minute deals, and clearing out overstocked or soon-to-expire items across all marketplace categories"
      tone := "urgent, enthusiastic, bargain-focused"
      response_style := "Highlight steep discounts, limited-time offers, and low inventory levels to create a sense of urgency. Focus on price savings and practicality over luxury or long-term value"
      priorities := ["price", "inventory levels", "deal urgency"] }),
   ("ecommerce_retail_store_manager",
    { description := "an experienced e-commerce retail store manager with a strategic focus on optimizing sales, customer satisfaction, and inventory turnover across a diverse marketplace"
      tone := "professional, practical, results-driven"
      response_style := "Provide balanced recommendations that align with business goals, customer preferences, and current market trends. Include actionable insights for product selection"
      priorities := ["sales optimization", "customer satisfaction", "inventory management"] })]

/-- `PERSONAS[name]` (the keys of the table are distinct, so first match is
dict lookup). -/
def lookupPersona (name : String) : Option PersonaData :=
  (PERSONAS.find? (fun kv => kv.1 == name)).map (·.2)

/-- `name in PromptFactory.PERSONAS`. -/
def personaMem (name : String) : Bool :=
  PERSONAS.any (fun kv => kv.1 == name)

/-- Python `dict.get(k, dflt)` on a string-valued association list (later
bindings shadow earlier ones, as in a Python dict). -/
def pyGetS (d : List (String × String)) (k dflt : String) : String :=
  match d.reverse.find? (fun kv => kv.1 == k) with
  | some kv => kv.2
  | none => dflt

/-- Modelled from the spec: the `UserProfile` class is not under `src/`.
Per §6 it exposes a `site_config` mapping (key `"profile"` read for the
persona name), a `cart` (sequence of mappings whose `sku`/`name`/`price`
fields are strings, per the CartItem shape of §3), and opaque `orders`. -/
structure UserProfile where
  site_config : List (String × String)
  cart : List (List (String × String))
  orders : List String

/-- `PromptFactory._sort_cart_keys` (source name `_sort_cart_keys`): project
every cart item to the keys `sku`, `name`, `price` in that order, defaulting
a missing field to the empty string. -/
def sort_cart_keys : List (List (String × String)) → List (List (String × String))
  | [] => []
  | item :: rest =>
    [("sku", pyGetS item "sku" ""), ("name", pyGetS item "name" ""),
     ("price", pyGetS item "price" "")] :: sort_cart_keys rest

/-- Lower-case hexadecimal digit. -/
def hexDig (n : Nat) : Char :=
  if n < 10 then Char.ofNat (48 + n) else Char.ofNat (87 + n)

/-- Four hex digits of a `\uXXXX` escape. -/
def toHex4 (n : Nat) : List Char :=
  [hexDig (n / 4096 % 16), hexDig (n / 256 % 16), hexDig (n / 16 % 16), hexDig (n % 16)]

/-- Escaping of one character by `json.dumps` (default `ensure_ascii=True`;
astral characters, which Python writes as surrogate pairs, are abstracted to a
single `\uXXXX`). -/
def escChar (c : Char) : List Char :=
  if c == '\"' then ['\\', '\"']
  else if c == '\\' then ['\\', '\\']
  else if c == '\n' then ['\\', 'n']
  else if c == '\t' then ['\\', 't']
  else if c == '\r' then ['\\', 'r']
  else if c == '\x08' then ['\\', 'b']
  else if c == '\x0c' then ['\\', 'f']
  else if c.toNat < 32 || c.toNat > 126 then '\\' :: 'u' :: toHex4 c.toNat
  else [c]

/-- `json.dumps` of a string. -/
def dumpJsonStr (s : String) : String :=
  String.mk ('\"' :: (s.toList.map escChar).flatten ++ ['\"'])

/-- Comma-join, the item separator of `json.dumps(..., separators=(',', ':'))`. -/
def joinComma : List String → String
  | [] => ""
  | [x] => x
  | x :: y :: r => x ++ "," ++ joinComma (y :: r)

/-- `json.dumps` of one projected cart item (keys in insertion order, `':'`
as the key separator, no whitespace). -/
def dumpCartItem (d : List (String × String)) : String :=
  "\x7b" ++ joinComma (d.map (fun kv => dumpJsonStr kv.1 ++ ":" ++ dumpJsonStr kv.2)) ++ "\x7d"

/-- `json.dumps(cart, separators=(',', ':'))` for a projected cart (a list of
string-valued mappings, the shape `_sort_cart_keys` produces from spec-typed
carts). -/
def cartDumps (cart : List (List (String × String))) : String :=
  "[" ++ joinComma (cart.map dumpCartItem) ++ "]"

/-- The state `PromptFactory.__init__` leaves behind (the unused `catalog`,
`orders` copy and the constant `order_json = "[]"` are not carried).
`persona_log` records whether the invalid-persona diagnostic
(`bt.logging.error`) fired. -/
structure PromptFactory where
  sku : String
  context : String
  num_recs : Int
  debug : Bool
  cart : List (List (String × String))
  cart_json : String
  season : String
  engine_mode : String
  persona : String
  persona_log : Bool
  sku_info : String

/-- `PromptFactory.__init__`. The bound constants `CONST.MIN_QUERY_LENGTH`,
`CONST.MAX_QUERY_LENGTH`, `CONST.MAX_RECS_PER_REQUEST` and the helper
`ProductFactory.find_sku_name` live outside `src/` and are taken as
parameters; a raised `ValueError` is the `.error` case. -/
def mkPromptFactory (minQ maxQ maxRecs : Nat) (find_sku_name : String → String → String)
    (sku context : String) (num_recs : Int) (profile : Option UserProfile)
    (debug : Bool) : Except String PromptFactory :=
  if sku.length < minQ ∨ maxQ < sku.length then
    .error ("SKU must be between " ++ toString minQ ++ " and " ++ toString maxQ ++
      " characters long")
  else if num_recs < 1 ∨ (maxRecs : Int) < num_recs then
    .error ("num_recs must be between 1 and " ++ toString maxRecs)
  else
    match profile with
    | none =>
      .ok { sku := sku, context := context, num_recs := num_recs, debug := debug,
            cart := [], cart_json := "[]", season := SEASON, engine_mode := ENGINE_MODE,
            persona := "ecommerce_retail_store_manager", persona_log := false,
            sku_info := find_sku_name sku context }
    | some p =>
      let persona0 := pyGetS p.site_config "profile" "ecommerce_retail_store_manager"
      let cart := sort_cart_keys p.cart
      if persona0 = "" ∨ personaMem persona0 = false then
        .ok { sku := sku, context := context, num_recs := num_recs, debug := debug,
              cart := cart, cart_json := cartDumps cart, season := SEASON,
              engine_mode := ENGINE_MODE,
              persona := "ecommerce_retail_store_manager", persona_log := true,
              sku_info := find_sku_name sku context }
      else
        .ok { sku := sku, context := context, num_recs := num_recs, debug := debug,
              cart := cart, cart_json := cartDumps cart, season := SEASON,
              engine_mode := ENGINE_MODE,
              persona := persona0, persona_log := false,
              sku_info := find_sku_name sku context }

/-- `PromptFactory._get_seasonal_guidance` (source name
`_get_seasonal_guidance`), with the calendar month injected instead of read
from the system clock. -/
def get_seasonal_guidance (month : Nat) (season : String) : String :=
  match month with
  | 12 => "Winter season - focus on warm clothing, layering pieces, holiday styles"
  | 1 => "Winter season - focus on warm clothing, layering pieces, new year styles"
  | 2 => "Winter season - focus on warm clothing, layering pieces, valentine\x27s styles"
  | 3 => "Spring transition - focus on light layers, transitional pieces, fresh colors"
  | 4 => "Spring season - focus on light clothing, pastels, floral patterns"
  | 5 => "Spring season - focus on light clothing, pastels, floral patterns"
  | 6 => "Summer season - focus on lightweight fabrics, bright colors, beach styles"
  | 7 => "Summer season - focus on lightweight fabrics, bright colors, vacation styles"
  | 8 => "Summer season - focus on lightweight fabrics, bright colors, back-to-school"
  | 9 => "Fall transition - focus on layering pieces, earth tones, transitional styles"
  | 10 => "Fall season - focus on warm layers, earth tones, cozy styles"
  | 11 => "Fall season - focus on warm layers, earth tones, holiday preparation"
  | _ => "Current season: " ++ season

/-- The DETAILED prompt template of `generate_prompt` (small contexts). -/
def detailedPrompt (f : PromptFactory) (persona_data : PersonaData) (today : String)
    (context_analysis seasonal_guidance : String) : String :=
  "# E-COMMERCE RECOMMENDATION TASK - CONTENT QUALITY FOCUS\n\nYou are a " ++ f.persona ++
  " with expertise in " ++ persona_data.description.take 100 ++
  ".\nYour core values: " ++ String.intercalate ", " persona_data.priorities ++
  "\n\nSCENARIO: Customer viewing SKU " ++ f.sku ++ " (" ++ f.sku_info ++ ") looking for " ++
  f.engine_mode ++ " products.\nSeason: " ++ f.season ++ " | Date: " ++ today ++
  "\n\nCURRENT CART: " ++ f.cart_json ++
  "\n\nAVAILABLE PRODUCTS: " ++ f.context ++
  "\n\nCONTEXT ANALYSIS: " ++ context_analysis ++
  "\n\nSEASONAL GUIDANCE: " ++ seasonal_guidance ++
  "\n\nTASK: Recommend EXACTLY " ++ toString f.num_recs ++ " complementary products that:\n" ++
  "- Match query product\x27s category and gender (CRITICAL)\n" ++
  "- Provide detailed, specific reasoning for each recommendation\n" ++
  "- Consider seasonal relevance and current trends\n" ++
  "- Increase average order value and conversion potential\n" ++
  "- Avoid duplicates and the query product itself\n" ++
  "- Are ordered by relevance (best first)\n\nREASONING REQUIREMENTS:\n" ++
  "- Each reason must be specific and detailed (20+ words)\n" ++
  "- Explain WHY the product complements the query item\n" ++
  "- Mention category/gender matching\n" ++
  "- Include seasonal relevance if applicable\n" ++
  "- Consider price point and value proposition\n\nCRITICAL REQUIREMENTS:\n" ++
  "- Return ONLY valid JSON array with EXACTLY " ++ toString f.num_recs ++ " items\n" ++
  "- Each item: \x7b\"sku\": \"...\", \"name\": \"...\", \"price\": \"...\", \"reason\": \"...\"\x7d\n" ++
  "- SKU must exist in products list (case-sensitive match)\n" ++
  "- No duplicates, no query SKU, use double quotes only\n" ++
  "- Reason must be detailed and specific (not generic)\n\n" ++
  "Example: [\x7b\"sku\": \"ABC123\", \"name\": \"Premium Winter Jacket\", \"price\": \"89.99\", " ++
  "\"reason\": \"Perfect complement to the winter boots - same seasonal category, premium quality " ++
  "that matches the customer\x27s style, ideal for cold weather layering and completes the winter " ++
  "outfit ensemble\"\x7d]"

/-- The CONCISE prompt template of `generate_prompt` (large contexts). -/
def concisePrompt (f : PromptFactory) (persona_data : PersonaData) (seasonal_guidance : String) :
    String :=
  "You are a " ++ f.persona ++ " recommending " ++ toString f.num_recs ++ " " ++ f.engine_mode ++
  " products for SKU " ++ f.sku ++ " (" ++ f.sku_info ++ ").\n\nPERSONA: " ++
  persona_data.description.take 80 ++ "...\nVALUES: " ++
  String.intercalate ", " (persona_data.priorities.take 3) ++
  "\n\nCART: " ++ f.cart_json ++
  "\n\nPRODUCTS: " ++ f.context ++
  "\n\nSEASONAL GUIDANCE: " ++ seasonal_guidance ++
  "\n\nTASK: Select " ++ toString f.num_recs ++ " complementary products that:\n" ++
  "- Match the query product\x27s category/gender (CRITICAL)\n" ++
  "- Provide specific reasoning for each recommendation\n" ++
  "- Are relevant to current season (" ++ f.season ++ ")\n" ++
  "- Increase order value and conversion\n" ++
  "- Avoid duplicates and query product\n\nREASONING REQUIREMENTS:\n" ++
  "- Each reason must be specific (15+ words)\n" ++
  "- Explain WHY it complements the query item\n" ++
  "- Mention category/gender matching\n" ++
  "- Include seasonal relevance if applicable\n\nOUTPUT FORMAT:\n" ++
  "- Return ONLY valid JSON array with EXACTLY " ++ toString f.num_recs ++ " items\n" ++
  "- Each item: \x7b\"sku\": \"...\", \"name\": \"...\", \"price\": \"...\", \"reason\": \"...\"\x7d\n" ++
  "- SKU must exist in products list (case-sensitive)\n" ++
  "- No duplicates, no query SKU, use double quotes only\n" ++
  "- Order by relevance (best first)\n\n" ++
  "Example: [\x7b\"sku\": \"ABC123\", \"name\": \"Product Name\", \"price\": \"29.99\", " ++
  "\"reason\": \"Perfect complement for user needs\"\x7d]"

/-- `PromptFactory.generate_prompt`, with the current date and month injected.
The returned pair is the prompt together with the `prompt_type` the source
computes for its log line; `none` is the `KeyError` a persona outside the
table would raise at `PERSONAS[self.persona]`. -/
def generate_prompt (f : PromptFactory) (today : String) (month : Nat) :
    Option (String × String) :=
  match lookupPersona f.persona with
  | none => none
  | some persona_data =>
    let context_length := f.context.length
    let cart_length := f.cart_json.length
    let context_analysis := analyze_context f.context
    let seasonal_guidance := get_seasonal_guidance month f.season
    let prompt :=
      if context_length < 5000 ∧ cart_length < 1000 then
        detailedPrompt f persona_data today context_analysis seasonal_guidance
      else
        concisePrompt f persona_data seasonal_guidance
    let prompt_type :=
      if context_length < 5000 ∧ cart_length < 1000 then "DETAILED" else "CONCISE"
    some (prompt, prompt_type)

/-- Whether a construction attempt succeeded (no `ValueError`). -/
def exceptOk {ε α : Type} : Except ε α → Bool
  | .ok _ => true
  | .error _ => false

/-- A factory state with a small context and an in-table persona. -/
def sampleFactory : PromptFactory :=
  { sku := "ABC", context := "small", num_recs := 5, debug := false, cart := [],
    cart_json := "[]", season := SEASON, engine_mode := ENGINE_MODE,
    persona := "ecommerce_retail_store_manager", persona_log := false, sku_info := "" }

/-- A profile whose `site_config` lacks the `"profile"` key. -/
def emptyProfile : UserProfile := { site_config := [], cart := [], orders := [] }

/-- A profile requesting a persona name outside the fixed table. -/
def nonexistentProfile : UserProfile :=
  { site_config := [("profile", "nonexistent")], cart := [], orders := [] }

/-- The factory state built from `nonexistentProfile`. -/
def nonexistentFactory : PromptFactory :=
  { sku := "ABC", context := "", num_recs := 5, debug := false, cart := [],
    cart_json := "[]", season := SEASON, engine_mode := ENGINE_MODE,
    persona := "ecommerce_retail_store_manager", persona_log := true, sku_info := "" }

lemma firstListParse_append_some {a : List (List Char)} {xs : List Json}
    (b : List (List Char)) (h : firstListParse a = some xs) :
    firstListParse (a ++ b) = some xs := by
  induction a with
  | nil => simp [firstListParse] at h
  | cons m rest ih =>
    rw [List.cons_append]
    rw [firstListParse] at h ⊢
    cases hm : json_loads_l (pyStrip m) with
    | none => rw [hm] at h; exact ih h
    | some j =>
      rw [hm] at h
      cases j with
      | arr xs' => exact h
      | null => exact ih h
      | bool b => exact ih h
      | num q => exact ih h
      | str s => exact ih h
      | obj o => exact ih h

lemma firstListParse_append_none {a : List (List Char)}
    (b : List (List Char)) (h : firstListParse a = none) :
    firstListParse (a ++ b) = firstListParse b := by
  induction a with
  | nil => simp
  | cons m rest ih =>
    rw [List.cons_append]
    rw [firstListParse] at h ⊢
    cases hm : json_loads_l (pyStrip m) with
    | none => rw [hm] at h; exact ih h
    | some j =>
      rw [hm] at h
      cases j with
      | arr xs' => exact absurd h (by simp)
      | null => exact ih h
      | bool b => exact ih h
      | num q => exact ih h
      | str s => exact ih h
      | obj o => exact ih h

/-- C1: `tryparse_llm` coincides, on every raw input string, with the spec's
description: after cleaning, all candidates of strategy (a) and then of
strategy (b) are tried in order of appearance, the first candidate parsing to
a list wins immediately, otherwise the entire cleaned string is parsed and
returned if it is a list, otherwise the result is the empty sequence. -/
theorem tryparse_llm_matches_spec (s : String) : tryparse_llm s = recover_spec s := by
  rw [tryparse_llm, recover_spec]
  by_cases h : pyStrip s.toList = []
  · rw [if_pos h]
    have hc : cleanInput s.toList = [] := by rw [cleanInput, h]; rfl
    rw [hc]
    rfl
  · rw [if_neg h]
    cases ha : firstListParse (findall dotAllDot (cleanInput s.toList)) with
    | some xs =>
      rw [firstListParse_append_some _ ha]
      simp only [ha]
    | none =>
      rw [firstListParse_append_none _ ha]
      simp only [ha]

/-- C2 counterexample: on the spec's exact input, `tryparse_llm` returns the
empty sequence, not a sequence containing the record with sku `"B"`: the
non-greedy scan produces a single candidate stretching from the first `[` to
the only `]` of the input (its last character), that candidate fails to parse,
and no further candidate exists. -/
theorem tryparse_c2_exact_input_is_empty : tryparse_llm c2_input = [] := by rfl

/-- C2 amended: a malformed first candidate does not abort recovery when a
later well-formed candidate constitutes its own match — with the malformed
prefix closed by its own `]`, the record with sku `"B"` is returned. -/
theorem tryparse_c2_closed_input_recovers :
    tryparse_llm c2_input_closed =
      [Json.obj [("sku", Json.str "B"), ("name", Json.str "N"),
                 ("price", Json.str "1"), ("reason", Json.str "r")]] := by rfl

lemma findClose_sclass_eq (cs : List Char) :
    findClose backslashSClass cs = findClose dotAllDot cs := by
  induction cs with
  | nil => rfl
  | cons c r ih =>
    rw [findClose, findClose, ih]
    have hb : backslashSClass c = true := by
      rw [backslashSClass]; cases isPyRegexSpace c <;> rfl
    rw [hb, dotAllDot]

lemma findAllGo_sclass_eq (fuel : Nat) (s : List Char) :
    findAllGo backslashSClass fuel s = findAllGo dotAllDot fuel s := by
  induction fuel generalizing s with
  | zero => rfl
  | succ f ih =>
    cases s with
    | nil => rfl
    | cons c cs =>
      rw [findAllGo, findAllGo, findClose_sclass_eq]
      cases findClose dotAllDot cs with
      | none => simp only [ih]
      | some pr => cases pr with
        | mk content rest => simp only [ih]

/-- C9: under `re.DOTALL` both repetition bodies accept every character, so the
two extraction strategies `\[.*?\]` and `\[[\s\S]*?\]` produce identical
non-overlapping match lists on every cleaned input; hence the candidate loop of
the second strategy yields a list exactly when the first already did, with the
same result. -/
theorem strategies_equivalent :
    (∀ s : List Char, findall backslashSClass s = findall dotAllDot s) ∧
    (∀ s : List Char,
      firstListParse (findall backslashSClass s) = firstListParse (findall dotAllDot s)) := by
  constructor
  · intro s; rw [findall, findall, findAllGo_sclass_eq]
  · intro s; rw [findall, findall, findAllGo_sclass_eq]

lemma exceptOk_ite {ε α : Type} (c : Prop) [Decidable c] (a b : α) :
    exceptOk (if c then Except.ok a else Except.ok b : Except ε α) = true := by
  split <;> rfl

lemma generate_prompt_type (f : PromptFactory) (today : String) (month : Nat)
    (h : (lookupPersona f.persona).isSome = true) :
    (generate_prompt f today month).map Prod.snd =
      some (if f.context.length < 5000 ∧ f.cart_json.length < 1000 then "DETAILED"
            else "CONCISE") := by
  rw [generate_prompt]
  cases hp : lookupPersona f.persona with
  | none => rw [hp] at h; simp at h
  | some pd => rfl

/-- C3: for every factory state whose persona is in the table (as construction
guarantees), the prompt variant reported and rendered by `generate_prompt` is
DETAILED exactly when `len(context) < 5000` and `len(cart_json) < 1000`
(strict comparisons on the serialized forms), and CONCISE otherwise. -/
theorem variant_selection (f : PromptFactory) (today : String) (month : Nat)
    (h : (lookupPersona f.persona).isSome = true) :
    ((generate_prompt f today month).map Prod.snd = some "DETAILED" ↔
      (f.context.length < 5000 ∧ f.cart_json.length < 1000)) ∧
    ((generate_prompt f today month).map Prod.snd = some "CONCISE" ↔
      ¬(f.context.length < 5000 ∧ f.cart_json.length < 1000)) := by
  have ht := generate_prompt_type f today month h
  by_cases hc : f.context.length < 5000 ∧ f.cart_json.length < 1000
  · rw [ht, if_pos hc]
    refine ⟨⟨fun _ => hc, fun _ => rfl⟩, ⟨fun he => ?_, fun hn => absurd hc hn⟩⟩
    exact absurd (Option.some.inj he) (by decide)
  · rw [ht, if_neg hc]
    refine ⟨⟨fun he => ?_, fun hcc => absurd hcc hc⟩, ⟨fun _ => hc, fun _ => rfl⟩⟩
    exact absurd (Option.some.inj he) (by decide)

/-- Witness for C3 at a concrete factory state below both thresholds. -/
theorem variant_selection_witness :
    (generate_prompt sampleFactory "2026-10-12" 10).map Prod.snd = some "DETAILED" :=
  (variant_selection sampleFactory "2026-10-12" 10 (by decide)).1.mpr (by decide)

/-- C4: construction succeeds exactly when the sku length lies in
`[MIN_QUERY_LENGTH, MAX_QUERY_LENGTH]` and `num_recs` in
`[1, MAX_RECS_PER_REQUEST]`; each out-of-bounds input is rejected at
construction time with the corresponding descriptive `ValueError` message. -/
theorem construction_validation (minQ maxQ maxRecs : Nat)
    (fsn : String → String → String) (sku context : String) (n : Int)
    (profile : Option UserProfile) (debug : Bool) :
    (exceptOk (mkPromptFactory minQ maxQ maxRecs fsn sku context n profile debug) = true ↔
      (minQ ≤ sku.length ∧ sku.length ≤ maxQ ∧ 1 ≤ n ∧ n ≤ (maxRecs : Int))) ∧
    (sku.length < minQ ∨ maxQ < sku.length →
      mkPromptFactory minQ maxQ maxRecs fsn sku context n profile debug =
        .error ("SKU must be between " ++ toString minQ ++ " and " ++ toString maxQ ++
          " characters long")) ∧
    (minQ ≤ sku.length → sku.length ≤ maxQ → (n < 1 ∨ (maxRecs : Int) < n) →
      mkPromptFactory minQ maxQ maxRecs fsn sku context n profile debug =
        .error ("num_recs must be between 1 and " ++ toString maxRecs)) := by
  rw [mkPromptFactory.eq_def]
  by_cases h1 : sku.length < minQ ∨ maxQ < sku.length
  · rw [if_pos h1]
    refine ⟨⟨fun he => absurd he (by simp [exceptOk]), fun hb => absurd h1 (by omega)⟩,
      fun _ => rfl, fun ha hb _ => absurd h1 (by omega)⟩
  · rw [if_neg h1]
    by_cases h2 : n < 1 ∨ (maxRecs : Int) < n
    · rw [if_pos h2]
      refine ⟨⟨fun he => absurd he (by simp [exceptOk]), fun hb => absurd h2 (by omega)⟩,
        fun hs => absurd hs h1, fun _ _ _ => rfl⟩
    · rw [if_neg h2]
      cases profile with
      | none =>
        exact ⟨⟨fun _ => by omega, fun _ => rfl⟩,
          fun hs => absurd hs h1, fun _ _ hn => absurd hn h2⟩
      | some p =>
        exact ⟨⟨fun _ => by omega, fun _ => exceptOk_ite _ _ _⟩,
          fun hs => absurd hs h1, fun _ _ hn => absurd hn h2⟩

/-- Witness for C4: an in-bounds construction succeeds, a short sku and an
oversized `num_recs` are rejected with the descriptive messages. -/
theorem construction_validation_witness :
    exceptOk (mkPromptFactory 3 10 20 (fun _ _ => "") "ABCDE" "ctx" 5 none false) = true ∧
    mkPromptFactory 3 10 20 (fun _ _ => "") "AB" "ctx" 5 none false =
      .error "SKU must be between 3 and 10 characters long" ∧
    mkPromptFactory 3 10 20 (fun _ _ => "") "ABCDE" "ctx" 25 none false =
      .error "num_recs must be between 1 and 20" :=
  ⟨(construction_validation 3 10 20 (fun _ _ => "") "ABCDE" "ctx" 5 none false).1.mpr
      (by refine ⟨by decide, by decide, by decide, by decide⟩),
   (construction_validation 3 10 20 (fun _ _ => "") "AB" "ctx" 5 none false).2.1
      (Or.inl (by decide)),
   (construction_validation 3 10 20 (fun _ _ => "") "ABCDE" "ctx" 25 none false).2.2
      (by decide) (by decide) (Or.inr (by decide))⟩

/-- C5 amended: every successful construction resolves to a persona of the
fixed table; a requested name that is empty or not in the table resolves to
the fallback with the diagnostic log entry fired; a missing name — no profile,
or a `site_config` without the `"profile"` key, where the dict default already
yields the fallback — resolves to the fallback silently, with no log entry. -/
theorem persona_resolution (minQ maxQ maxRecs : Nat) (fsn : String → String → String)
    (sku context : String) (n : Int) (debug : Bool) (profile : Option UserProfile)
    (f : PromptFactory)
    (h : mkPromptFactory minQ maxQ maxRecs fsn sku context n profile debug = .ok f) :
    personaMem f.persona = true ∧
    (profile = none → f.persona = "ecommerce_retail_store_manager" ∧ f.persona_log = false) ∧
    (∀ p, profile = some p →
      ((pyGetS p.site_config "profile" "ecommerce_retail_store_manager" = "" ∨
        personaMem (pyGetS p.site_config "profile" "ecommerce_retail_store_manager") = false) →
          f.persona = "ecommerce_retail_store_manager" ∧ f.persona_log = true) ∧
      ((pyGetS p.site_config "profile" "ecommerce_retail_store_manager" ≠ "" ∧
        personaMem (pyGetS p.site_config "profile" "ecommerce_retail_store_manager") = true) →
          f.persona = pyGetS p.site_config "profile" "ecommerce_retail_store_manager" ∧
          f.persona_log = false)) := by
  rw [mkPromptFactory.eq_def] at h
  by_cases h1 : sku.length < minQ ∨ maxQ < sku.length
  · rw [if_pos h1] at h; exact absurd h (by simp)
  · rw [if_neg h1] at h
    by_cases h2 : n < 1 ∨ (maxRecs : Int) < n
    · rw [if_pos h2] at h; exact absurd h (by simp)
    · rw [if_neg h2] at h
      cases profile with
      | none =>
        cases h
        exact ⟨by rfl, fun _ => ⟨rfl, rfl⟩, fun p hp => by cases hp⟩
      | some p =>
        simp only [] at h
        by_cases hi : pyGetS p.site_config "profile" "ecommerce_retail_store_manager" = "" ∨
            personaMem (pyGetS p.site_config "profile" "ecommerce_retail_store_manager") = false
        · rw [if_pos hi] at h
          cases h
          refine ⟨?_, ?_, ?_⟩
          · rfl
          · intro hn; cases hn
          · intro q hq
            obtain rfl : p = q := Option.some.inj hq
            refine ⟨fun _ => ⟨rfl, rfl⟩, fun hv => ?_⟩
            rcases hi with hi | hi
            · exact absurd hi hv.1
            · rw [hv.2] at hi; cases hi
        · rw [if_neg hi] at h
          cases h
          push_neg at hi
          have hm : personaMem
              (pyGetS p.site_config "profile" "ecommerce_retail_store_manager") = true := by
            cases hx : personaMem
                (pyGetS p.site_config "profile" "ecommerce_retail_store_manager") with
            | false => exact absurd hx hi.2
            | true => rfl
          refine ⟨?_, ?_, ?_⟩
          · exact hm
          · intro hn; cases hn
          · intro q hq
            obtain rfl : p = q := Option.some.inj hq
            refine ⟨fun hv => ?_, fun _ => ⟨rfl, rfl⟩⟩
            rcases hv with hv | hv
            · exact absurd hv hi.1
            · exact absurd hv hi.2

/-- C5 counterexample: with a profile whose `site_config` has no `"profile"`
key (a missing persona name), the resolved persona is the fallback but no
diagnostic log entry records the substitution — the dict default already is
the fallback, so the invalid-persona branch does not fire. -/
theorem persona_missing_name_silent :
    (mkPromptFactory 1 10 20 (fun _ _ => "") "ABC" "" 5 (some emptyProfile) false).toOption.map
      (fun f => (f.persona, f.persona_log)) =
      some ("ecommerce_retail_store_manager", false) := by rfl

/-- Witness for C5: an out-of-table persona name resolves to the fallback with
the diagnostic fired, via `persona_resolution` at a concrete construction. -/
theorem persona_resolution_witness :
    personaMem nonexistentFactory.persona = true ∧
    nonexistentFactory.persona = "ecommerce_retail_store_manager" ∧
    nonexistentFactory.persona_log = true :=
  ⟨(persona_resolution 1 10 20 (fun _ _ => "") "ABC" "" 5 false (some nonexistentProfile)
      nonexistentFactory (by rfl)).1,
   ((persona_resolution 1 10 20 (fun _ _ => "") "ABC" "" 5 false (some nonexistentProfile)
      nonexistentFactory (by rfl)).2.2 nonexistentProfile rfl).1 (Or.inr (by decide))⟩

/-- C10: constructing with no user profile yields the fallback persona with no
diagnostic, the empty cart whose serialization is exactly `"[]"`, and hence the
variant choice degenerates to `len(context) < 5000` alone. -/
theorem no_profile_defaults (minQ maxQ maxRecs : Nat) (fsn : String → String → String)
    (sku context : String) (n : Int) (debug : Bool) (f : PromptFactory)
    (h : mkPromptFactory minQ maxQ maxRecs fsn sku context n none debug = .ok f) :
    f.persona = "ecommerce_retail_store_manager" ∧ f.persona_log = false ∧
    f.cart = [] ∧ f.cart_json = "[]" ∧
    (∀ today month, (generate_prompt f today month).map Prod.snd = some "DETAILED" ↔
      context.length < 5000) := by
  rw [mkPromptFactory.eq_def] at h
  by_cases h1 : sku.length < minQ ∨ maxQ < sku.length
  · rw [if_pos h1] at h; exact absurd h (by simp)
  · rw [if_neg h1] at h
    by_cases h2 : n < 1 ∨ (maxRecs : Int) < n
    · rw [if_pos h2] at h; exact absurd h (by simp)
    · rw [if_neg h2] at h
      cases h
      refine ⟨rfl, rfl, rfl, rfl, fun today month => ?_⟩
      rw [generate_prompt_type _ today month (by rfl)]
      by_cases hc : context.length < 5000
      · rw [if_pos ⟨hc, of_decide_eq_true rfl⟩]
        exact ⟨fun _ => hc, fun _ => rfl⟩
      · rw [if_neg (by intro hx; exact hc hx.1)]
        exact ⟨fun he => absurd (Option.some.inj he) (by decide), fun hcc => absurd hcc hc⟩

/-- Witness for C10 at a concrete profile-free construction. -/
theorem no_profile_defaults_witness :
    sampleFactory.persona = "ecommerce_retail_store_manager" ∧
    sampleFactory.cart_json = "[]" ∧
    ((generate_prompt sampleFactory "2026-10-12" 10).map Prod.snd = some "DETAILED" ↔
      ("small" : String).length < 5000) :=
  ⟨(no_profile_defaults 3 10 20 (fun _ _ => "") "ABC" "small" 5 false sampleFactory
      (by rfl)).1,
   (no_profile_defaults 3 10 20 (fun _ _ => "") "ABC" "small" 5 false sampleFactory
      (by rfl)).2.2.2.1,
   (no_profile_defaults 3 10 20 (fun _ _ => "") "ABC" "small" 5 false sampleFactory
      (by rfl)).2.2.2.2 "2026-10-12" 10⟩

/-- C7: context analysis never propagates an exception: a context that fails
to parse as JSON yields the sentinel `"Context analysis unavailable"`, an empty
product list yields the sentinel `"No products available for analysis"`, and a
record the per-record loop cannot process (the modelled in-loop exception)
again yields `"Context analysis unavailable"`. -/
theorem analyze_context_sentinels (ctx : String) :
    (json_loads_l ctx.toList = none → analyze_context ctx = "Context analysis unavailable") ∧
    (json_loads_l ctx.toList = some (Json.arr []) →
      analyze_context ctx = "No products available for analysis") ∧
    (∀ l, json_loads_l ctx.toList = some (Json.arr l) → analyzeRecords (l.take 50) = none →
      analyze_context ctx = "Context analysis unavailable") := by
  refine ⟨?_, ?_, ?_⟩
  · intro h; rw [analyze_context, h]
  · intro h; rw [analyze_context, h]; rfl
  · intro l h hr
    cases l with
    | nil => exact absurd hr (by simp [analyzeRecords])
    | cons j rest =>
      have hred : analyze_context ctx =
          match analyzeRecords (List.take 50 (j :: rest)) with
          | some (cs, gs, ps) => buildSummary cs gs ps
          | none => "Context analysis unavailable" := by
        rw [analyze_context, h]
        rfl
      rw [hred, hr]

/-- Witness for C7: the three sentinel paths at concrete contexts. -/
theorem analyze_context_sentinels_witness :
    analyze_context "no json here" = "Context analysis unavailable" ∧
    analyze_context "[]" = "No products available for analysis" ∧
    analyze_context "[\"a\"]" = "Context analysis unavailable" :=
  ⟨(analyze_context_sentinels "no json here").1 (by rfl),
   (analyze_context_sentinels "[]").2.1 (by rfl),
   (analyze_context_sentinels "[\"a\"]").2.2 [Json.str "a"] (by rfl) (by rfl)⟩

/-- C6 counterexample: the record price `"75"` parses to exactly 75, which is
not above 75 (and lies between 25 and 75), yet the code tallies it as
`premium` — the source's second test is `price_val < 75`, so the 75 boundary
goes to premium, not mid-range. -/
theorem price_boundary_75 :
    pyFloat (stripMoney (pyStr (Json.str "75"))) = some 75 ∧
    priceBucketJ (Json.str "75") = some "premium" ∧
    ¬((75 : Rat) > 75) := by
  refine ⟨by decide, by decide, by norm_num⟩

/-- C6 amended: a record's price is bucketed, after stripping `$` and `,`,
as budget when below 25, mid-range when at least 25 and below 75, premium when
at least 75 (the 75 boundary goes to premium); an unparseable price yields no
bucket, and the price tally of the analysis loop is exactly the sequence of
per-record buckets of the processed records. -/
theorem price_bucketing (p : Json) :
    (priceBucketJ p = none ↔ pyFloat (stripMoney (pyStr p)) = none) ∧
    (∀ v : Rat, pyFloat (stripMoney (pyStr p)) = some v →
      ((priceBucketJ p = some "budget" ↔ v < 25) ∧
       (priceBucketJ p = some "mid-range" ↔ 25 ≤ v ∧ v < 75) ∧
       (priceBucketJ p = some "premium" ↔ 75 ≤ v))) ∧
    (∀ recs t, analyzeRecords recs = some t →
      t.2.2 = recs.filterMap fun r =>
        match r with
        | Json.obj d => priceBucketJ (pyGetJ d "price" (Json.str "0"))
        | _ => none) := by
  refine ⟨?_, ?_, ?_⟩
  · rw [priceBucketJ]
    cases hf : pyFloat (stripMoney (pyStr p)) with
    | none => simp
    | some v => simp
  · intro v hv
    have hb : priceBucketJ p =
        some (if v < 25 then "budget" else if v < 75 then "mid-range" else "premium") := by
      rw [priceBucketJ, hv]
    by_cases h1 : v < 25
    · rw [hb, if_pos h1]
      refine ⟨⟨fun _ => h1, fun _ => rfl⟩,
        ⟨fun he => absurd (Option.some.inj he) (by decide),
         fun hc => absurd h1 (not_lt.mpr hc.1)⟩,
        ⟨fun he => absurd (Option.some.inj he) (by decide),
         fun hp => absurd h1 (not_lt.mpr (le_trans (by norm_num) hp))⟩⟩
    · by_cases h2 : v < 75
      · rw [hb, if_neg h1, if_pos h2]
        refine ⟨⟨fun he => absurd (Option.some.inj he) (by decide), fun hbv => absurd hbv h1⟩,
          ⟨fun _ => ⟨not_lt.mp h1, h2⟩, fun _ => rfl⟩,
          ⟨fun he => absurd (Option.some.inj he) (by decide),
           fun hp => absurd h2 (not_lt.mpr hp)⟩⟩
      · rw [hb, if_neg h1, if_neg h2]
        refine ⟨⟨fun he => absurd (Option.some.inj he) (by decide), fun hbv => absurd hbv h1⟩,
          ⟨fun he => absurd (Option.some.inj he) (by decide), fun hm => absurd hm.2 h2⟩,
          ⟨fun _ => not_lt.mp h2, fun _ => rfl⟩⟩
  · intro recs
    induction recs with
    | nil =>
      intro t h
      obtain rfl : ([], [], []) = t := Option.some.inj h
      rfl
    | cons j rest ih =>
      intro t h
      cases j with
      | obj d =>
        rw [analyzeRecords] at h
        cases hr : analyzeRecords rest with
        | none => rw [hr] at h; exact Option.noConfusion h
        | some t' =>
          obtain ⟨cs', gs', ps'⟩ := t'
          rw [hr] at h
          have hps := ih (cs', gs', ps') hr
          obtain rfl := Option.some.inj h
          simp only [List.filterMap_cons]
          cases hbk : priceBucketJ (pyGetJ d "price" (Json.str "0")) with
          | none => simpa [hbk] using hps
          | some b => simpa [hbk] using congrArg (b :: ·) hps
      | null => exact Option.noConfusion h
      | bool b => exact Option.noConfusion h
      | num q => exact Option.noConfusion h
      | str s => exact Option.noConfusion h
      | arr l => exact Option.noConfusion h

/-- Witness for C6 at concrete prices on both sides of each boundary and an
unparseable price. -/
theorem price_bucketing_witness :
    priceBucketJ (Json.str "10") = some "budget" ∧
    priceBucketJ (Json.str "30") = some "mid-range" ∧
    priceBucketJ (Json.str "$1,000") = some "premium" ∧
    priceBucketJ (Json.str "abc") = none :=
  ⟨((price_bucketing (Json.str "10")).2.1 10 (by decide)).1.mpr (by norm_num),
   ((price_bucketing (Json.str "30")).2.1 30 (by decide)).2.1.mpr
      ⟨by norm_num, by norm_num⟩,
   ((price_bucketing (Json.str "$1,000")).2.1 1000 (by decide)).2.2.mpr (by norm_num),
   (price_bucketing (Json.str "abc")).1.mpr (by decide)⟩

lemma dumpCartItem_proj (a b c : String) :
    dumpCartItem [("sku", a), ("name", b), ("price", c)] =
      "\x7b\"sku\":" ++ dumpJsonStr a ++ ",\"name\":" ++ dumpJsonStr b ++
      ",\"price\":" ++ dumpJsonStr c ++ "\x7d" := by
  show "\x7b" ++ joinComma [dumpJsonStr "sku" ++ ":" ++ dumpJsonStr a,
    dumpJsonStr "name" ++ ":" ++ dumpJsonStr b,
    dumpJsonStr "price" ++ ":" ++ dumpJsonStr c] ++ "\x7d" = _
  rw [joinComma, joinComma, joinComma]
  apply String.ext
  simp only [String.data_append, List.append_assoc]
  rfl

lemma sort_cart_keys_eq_map (cart : List (List (String × String))) :
    sort_cart_keys cart = cart.map (fun item =>
      [("sku", pyGetS item "sku" ""), ("name", pyGetS item "name" ""),
       ("price", pyGetS item "price" "")]) := by
  induction cart with
  | nil => rfl
  | cons i rest ih => rw [sort_cart_keys, List.map_cons, ih]

lemma sort_cart_keys_fst (cart : List (List (String × String))) :
    (sort_cart_keys cart).map (fun item => item.map Prod.fst) =
      List.replicate cart.length ["sku", "name", "price"] := by
  induction cart with
  | nil => rfl
  | cons i rest ih =>
    rw [sort_cart_keys, List.map_cons, List.length_cons, List.replicate_succ, ih]
    rfl

lemma map_dumpCartItem (cart : List (List (String × String))) :
    (sort_cart_keys cart).map dumpCartItem = cart.map (fun item =>
      "\x7b\"sku\":" ++ dumpJsonStr (pyGetS item "sku" "") ++ ",\"name\":" ++
      dumpJsonStr (pyGetS item "name" "") ++ ",\"price\":" ++
      dumpJsonStr (pyGetS item "price" "") ++ "\x7d") := by
  induction cart with
  | nil => rfl
  | cons i rest ih =>
    rw [sort_cart_keys, List.map_cons, List.map_cons, ih, dumpCartItem_proj]

/-- C8: cart projection maps every cart to one of the same length in the same
order; each projected item has exactly the keys `sku`, `name`, `price` with the
source item's values, a missing field defaulting to the empty string; and the
serialization is compact JSON — only `,` and `:` separators around the escaped
fields, with no added whitespace. -/
theorem cart_projection (cart : List (List (String × String))) :
    (sort_cart_keys cart).length = cart.length ∧
    sort_cart_keys cart = cart.map (fun item =>
      [("sku", pyGetS item "sku" ""), ("name", pyGetS item "name" ""),
       ("price", pyGetS item "price" "")]) ∧
    (sort_cart_keys cart).map (fun item => item.map Prod.fst) =
      List.replicate cart.length ["sku", "name", "price"] ∧
    cartDumps (sort_cart_keys cart) =
      "[" ++ joinComma (cart.map (fun item =>
        "\x7b\"sku\":" ++ dumpJsonStr (pyGetS item "sku" "") ++ ",\"name\":" ++
        dumpJsonStr (pyGetS item "name" "") ++ ",\"price\":" ++
        dumpJsonStr (pyGetS item "price" "") ++ "\x7d")) ++ "]" :=
  ⟨by rw [sort_cart_keys_eq_map, List.length_map],
   sort_cart_keys_eq_map cart,
   sort_cart_keys_fst cart,
   by rw [cartDumps, map_dumpCartItem]⟩

end Bitrecs
